import Mathlib

/-!
Verification of the tic-tac-toe Telegram bot (`tic_tac_toe_tg_bot.py`).

The game core is embedded shallowly:
  * a board cell is one of the three string constants `FREE_SPACE`, `CROSS`,
    `ZERO` the program stores, modelled as an enumerated type;
  * the 3x3 nested-list board `state` is modelled as a function
    `Fin 3 → Fin 3 → Cell`, indexed as `state r c` for Python's `state[r][c]`;
  * the in-place mutations of the `game` handler are modelled by explicit
    state passing: each call returns the final board together with the
    outcome (which user-visible message was sent) and the integer
    conversation state the handler returns;
  * `random.choice(free_cells)` is modelled by an extra parameter `k : Nat`
    selecting the element `free_cells[k % len(free_cells)]`; quantifying
    over `k` ranges over every choice the random source can make.
-/

namespace TicTacToe

/-- The three values a board cell can hold: the module constants
`FREE_SPACE = '.'`, `CROSS = 'X'`, `ZERO = 'O'`. -/
inductive Cell
| FREE_SPACE
| CROSS
| ZERO
deriving DecidableEq, Repr, Inhabited

/-- `state: List[List[str]]`, a 3x3 grid; `state r c` is Python's `state[r][c]`. -/
abbrev Board := Fin 3 → Fin 3 → Cell

/-- `DEFAULT_STATE = [[FREE_SPACE for _ in range(3)] for _ in range(3)]`. -/
def DEFAULT_STATE : Board := fun _ _ => Cell.FREE_SPACE

/-- `get_default_state()`: returns `deepcopy(DEFAULT_STATE)`.  The deep copy
makes the result value-independent of every previously mutated board; under
value semantics it is simply the constant all-free board. -/
def get_default_state : Board := DEFAULT_STATE

/-- `CONTINUE_GAME, FINISH_GAME = range(2)`. -/
def CONTINUE_GAME : Int := 0

/-- `CONTINUE_GAME, FINISH_GAME = range(2)`. -/
def FINISH_GAME : Int := 1

/-- `ConversationHandler.END` (the sentinel `-1` of python-telegram-bot),
returned by the `end` and `stop` handlers. -/
def CONVERSATION_END : Int := -1

/-- The in-place assignment `state[r][c] = mark`, as a functional update. -/
def place (b : Board) (r c : Fin 3) (m : Cell) : Board :=
  fun i j => if i = r ∧ j = c then m else b i j

/-- `won(fields, symbol)`: rows check, then columns check, then the two
diagonals `fields[i][i]` and `fields[i][2 - i]`.  The early `return True`
of each loop is the `List.any` / `||` short-circuit. -/
def won (b : Board) (s : Cell) : Bool :=
  ((List.finRange 3).any fun row => (List.finRange 3).all fun cell => decide (b row cell = s)) ||
  ((List.finRange 3).any fun col => (List.finRange 3).all fun row => decide (b row col = s)) ||
  ((List.finRange 3).all fun i => decide (b i i = s)) ||
  ((List.finRange 3).all fun i => decide (b i (2 - i) = s))

/-- `free_cells = [(i, j) for i in range(3) for j in range(3) if state[i][j] == FREE_SPACE]`. -/
def free_cells (b : Board) : List (Fin 3 × Fin 3) :=
  (List.finRange 3).flatMap fun i =>
    (List.finRange 3).filterMap fun j =>
      if b i j = Cell.FREE_SPACE then some (i, j) else none

/-- The five user-visible outcomes of one `game` call, identified by which
reply the handler sends (occupied-cell message, "You won!", "AI won!",
"Draw!", or the re-prompt "X (your) turn!"). -/
inductive GameOutcome
| ONGOING
| PLAYER_WIN
| OPPONENT_WIN
| DRAW
| ILLEGAL_MOVE
deriving DecidableEq, Repr

/-- Result of one `game(update, context)` call: the message sent (outcome),
the board afterwards, and the conversation state the handler returns. -/
structure MoveResult where
  outcome : GameOutcome
  state : Board
  ret : Int

/-- `game(update, context)`, the per-move handler, with the board passed
explicitly and the random choice determined by `k` (see module comment).
Control flow mirrors the source: occupied-cell check; place `CROSS`;
player victory check; AI turn guarded by `if free_cells:`; AI victory
check; then the draw check `if not free_cells:` — note it re-tests the
_same_ `free_cells` list computed before the AI move. -/
def game (b : Board) (r c : Fin 3) (k : Nat) : MoveResult :=
  if b r c ≠ Cell.FREE_SPACE then
    ⟨GameOutcome.ILLEGAL_MOVE, b, CONTINUE_GAME⟩
  else
    let b1 := place b r c Cell.CROSS
    if won b1 Cell.CROSS then
      ⟨GameOutcome.PLAYER_WIN, b1, FINISH_GAME⟩
    else
      let fc := free_cells b1
      if h : fc ≠ [] then
        let p := fc.get ⟨k % fc.length, Nat.mod_lt k (List.length_pos.mpr h)⟩
        let b2 := place b1 p.1 p.2 Cell.ZERO
        if won b2 Cell.ZERO then
          ⟨GameOutcome.OPPONENT_WIN, b2, FINISH_GAME⟩
        else
          -- `if not free_cells:` is False here since `fc ≠ []`, so the
          -- draw branch is skipped and the handler re-prompts.
          ⟨GameOutcome.ONGOING, b2, CONTINUE_GAME⟩
      else
        -- `if not free_cells:` — outcome Draw.
        ⟨GameOutcome.DRAW, b1, FINISH_GAME⟩

/-- The `start` handler: sets `keyboard_state` to `get_default_state()` and
returns `CONTINUE_GAME`.  It is both the `/start` entry point and a
fallback, so it also performs the reset that re-enters the game after a
finished one. -/
def start : Board × Int := (get_default_state, CONTINUE_GAME)

/-- The `end` handler (`end` is reserved in Lean): resets `keyboard_state`
to `get_default_state()` and returns `ConversationHandler.END`. -/
def endConversation : Board × Int := (get_default_state, CONVERSATION_END)

/-- `InlineKeyboardButton(text, callback_data=...)`: the two fields the
program sets. -/
structure InlineKeyboardButton where
  text : Cell
  callback_data : String
deriving DecidableEq, Repr, Inhabited

/-- `generate_keyboard(state)`: the nested comprehension — the outer list
runs over `c in range(3)`, the inner over `r in range(3)`, each button
showing `state[r][c]` with callback data `f'{r}{c}'`. -/
def generate_keyboard (state : Board) : List (List InlineKeyboardButton) :=
  (List.finRange 3).map fun c =>
    (List.finRange 3).map fun r =>
      ⟨state r c, toString r.val ++ toString c.val⟩

/-- The callback-data bodies of the `CallbackQueryHandler` patterns
registered in `main`: `'^' + f'{r}{c}' + '$'` for `r, c in range(3)`. -/
def registeredPatterns : List String :=
  (List.range 3).flatMap fun r => (List.range 3).map fun c => toString r ++ toString c

/-- `re.match` of one registered pattern `'^' + body + '$'` against the
callback data `s` (`CallbackQueryHandler` tests the data with `re.match`).
`^` anchors at the start; the body here consists only of literal digit
characters; and Python's `$` (MULTILINE off) matches at the end of the
string or just before a single trailing newline — so the pattern matches
exactly the body itself and the body followed by one `'\n'`. -/
def regexMatches (body s : String) : Bool :=
  s == body || s == body ++ "\n"

/-- Whether some registered handler accepts callback data `s`: some
registered pattern matches it under `re.match`. -/
def acceptedByHandlers (s : String) : Bool :=
  registeredPatterns.any fun p => regexMatches p s

/-- Python `int` on a one-character string: succeeds exactly on a digit
character, giving its value; any other character raises `ValueError`
(whitespace such as `'\n'` is stripped, leaving the empty string, which
also raises), modelled as `none`. -/
def int_of_char (ch : Char) : Option Nat :=
  if 48 ≤ ch.toNat ∧ ch.toNat ≤ 57 then some (ch.toNat - 48) else none

/-- `r, c = map(int, query.data)`: the unpacking requires the data to have
exactly two characters and applies `int` to each; a datum of any other
length, or with a non-digit character, raises `ValueError`, modelled as
`none`. -/
def parseCoords (s : String) : Option (Nat × Nat) :=
  match s.toList with
  | [a, b] =>
    match int_of_char a, int_of_char b with
    | some r, some cv => some (r, cv)
    | _, _ => none
  | _ => none

end TicTacToe

namespace TicTacToe

/-- Spec-side win condition, written from the specification text: some one
of the 8 canonical lines (3 rows, 3 columns, the diagonal top-left to
bottom-right and the diagonal top-right to bottom-left) has all three of
its cells equal to the mark.  To be compared with the source's `won`. -/
def hasWonSpec (b : Board) (s : Cell) : Prop :=
  (b 0 0 = s ∧ b 0 1 = s ∧ b 0 2 = s) ∨
  (b 1 0 = s ∧ b 1 1 = s ∧ b 1 2 = s) ∨
  (b 2 0 = s ∧ b 2 1 = s ∧ b 2 2 = s) ∨
  (b 0 0 = s ∧ b 1 0 = s ∧ b 2 0 = s) ∨
  (b 0 1 = s ∧ b 1 1 = s ∧ b 2 1 = s) ∨
  (b 0 2 = s ∧ b 1 2 = s ∧ b 2 2 = s) ∨
  (b 0 0 = s ∧ b 1 1 = s ∧ b 2 2 = s) ∨
  (b 0 2 = s ∧ b 1 1 = s ∧ b 2 0 = s)

/-- Claim C2: for every board and every mark, `won` returns true if and
only if at least one of the 8 canonical lines (3 rows, 3 columns, the two
diagonals) has all three cells equal to the mark.  In particular a line
with two cells equal to the mark and one `FREE_SPACE` contributes no
disjunct of `hasWonSpec`, so it never makes `won` return true. -/
theorem C2_won_iff_canonical_line (b : Board) (s : Cell) :
    won b s = true ↔ hasWonSpec b s := by
  have h3 : List.finRange 3 = [0, 1, 2] := rfl
  unfold won
  rw [h3]
  simp only [List.any_cons, List.any_nil, List.all_cons, List.all_nil,
    Bool.or_eq_true, Bool.and_eq_true, decide_eq_true_eq, Bool.or_false, Bool.and_true]
  have e0 : (2 - 0 : Fin 3) = 2 := rfl
  have e1 : (2 - 1 : Fin 3) = 1 := rfl
  have e2 : (2 - 2 : Fin 3) = 0 := rfl
  rw [e0, e1, e2]
  unfold hasWonSpec
  simp only [or_assoc]

/-- Claim C2 witness: concrete instance — a row of crosses wins, and a
two-of-three line with one free cell does not. -/
theorem C2_won_iff_canonical_line_witness :
    won (fun _ _ => Cell.FREE_SPACE) Cell.CROSS = false ∧
    hasWonSpec ![![Cell.CROSS, Cell.CROSS, Cell.CROSS],
                 ![Cell.ZERO, Cell.ZERO, Cell.FREE_SPACE],
                 ![Cell.FREE_SPACE, Cell.FREE_SPACE, Cell.FREE_SPACE]] Cell.CROSS :=
  ⟨by decide,
   (C2_won_iff_canonical_line
      ![![Cell.CROSS, Cell.CROSS, Cell.CROSS],
        ![Cell.ZERO, Cell.ZERO, Cell.FREE_SPACE],
        ![Cell.FREE_SPACE, Cell.FREE_SPACE, Cell.FREE_SPACE]] Cell.CROSS).mp (by decide)⟩

/-- Claim C3: calling `game` on an occupied cell sends the illegal-move
reply, leaves every cell of the board unchanged, and returns
`CONTINUE_GAME` (the non-terminal conversation state), for every prior
board, coordinate and random seed. -/
theorem C3_occupied_noop (b : Board) (r c : Fin 3) (k : Nat)
    (hocc : b r c ≠ Cell.FREE_SPACE) :
    (game b r c k).outcome = GameOutcome.ILLEGAL_MOVE ∧
    (∀ i j, (game b r c k).state i j = b i j) ∧
    (game b r c k).ret = CONTINUE_GAME := by
  unfold game
  rw [if_pos hocc]
  exact ⟨rfl, fun i j => rfl, rfl⟩

/-- Scenario D board: only `board[1][1]` is occupied (by `O`). -/
def boardD : Board :=
  ![![Cell.FREE_SPACE, Cell.FREE_SPACE, Cell.FREE_SPACE],
    ![Cell.FREE_SPACE, Cell.ZERO, Cell.FREE_SPACE],
    ![Cell.FREE_SPACE, Cell.FREE_SPACE, Cell.FREE_SPACE]]

/-- Claim C3 witness: the player attempts (1,1) where `board[1][1] = O`. -/
theorem C3_occupied_noop_witness :
    boardD 1 1 ≠ Cell.FREE_SPACE ∧
    ((game boardD 1 1 0).outcome = GameOutcome.ILLEGAL_MOVE ∧
     (∀ i j, (game boardD 1 1 0).state i j = boardD i j) ∧
     (game boardD 1 1 0).ret = CONTINUE_GAME) :=
  ⟨by decide, C3_occupied_noop boardD 1 1 0 (by decide)⟩

end TicTacToe

namespace TicTacToe

/-- A pair produced by the `free_cells` comprehension names a cell whose
value is `FREE_SPACE` on the board it was computed from. -/
lemma mem_free_cells {b : Board} {p : Fin 3 × Fin 3}
    (hp : p ∈ free_cells b) : b p.1 p.2 = Cell.FREE_SPACE := by
  simp only [free_cells, List.mem_flatMap, List.mem_filterMap] at hp
  obtain ⟨i, _, j, _, hj⟩ := hp
  by_cases hb : b i j = Cell.FREE_SPACE
  · rw [if_pos hb] at hj
    obtain rfl := Option.some.inj hj
    exact hb
  · rw [if_neg hb] at hj
    cases hj

/-- Claim C4: when the player's move on a free cell completes a winning
line for `CROSS`, the call reports the player's victory, returns the
terminal conversation state `FINISH_GAME`, the played cell holds `CROSS`,
and every other cell keeps its previous value (in particular no opponent
mark is placed), for every random seed. -/
theorem C4_player_win_terminal (b : Board) (r c : Fin 3) (k : Nat)
    (hfree : b r c = Cell.FREE_SPACE)
    (hwin : won (place b r c Cell.CROSS) Cell.CROSS = true) :
    (game b r c k).outcome = GameOutcome.PLAYER_WIN ∧
    (game b r c k).ret = FINISH_GAME ∧
    (game b r c k).state r c = Cell.CROSS ∧
    ∀ i j, ¬(i = r ∧ j = c) → (game b r c k).state i j = b i j := by
  have hnot : ¬ b r c ≠ Cell.FREE_SPACE := by simp [hfree]
  unfold game
  rw [if_neg hnot]
  dsimp only
  rw [if_pos hwin]
  refine ⟨rfl, rfl, ?_, ?_⟩
  · simp [place]
  · intro i j hij
    simp only [place]
    rw [if_neg hij]

/-- Scenario B board: `[[X,X,.],[O,O,.],[.,.,.]]`. -/
def boardB : Board :=
  ![![Cell.CROSS, Cell.CROSS, Cell.FREE_SPACE],
    ![Cell.ZERO, Cell.ZERO, Cell.FREE_SPACE],
    ![Cell.FREE_SPACE, Cell.FREE_SPACE, Cell.FREE_SPACE]]

/-- Claim C4 witness: on the Scenario B board the player plays (0,2),
completing the top row. -/
theorem C4_player_win_terminal_witness :
    boardB 0 2 = Cell.FREE_SPACE ∧
    won (place boardB 0 2 Cell.CROSS) Cell.CROSS = true ∧
    ((game boardB 0 2 0).outcome = GameOutcome.PLAYER_WIN ∧
     (game boardB 0 2 0).ret = FINISH_GAME ∧
     (game boardB 0 2 0).state 0 2 = Cell.CROSS ∧
     ∀ i j, ¬(i = 0 ∧ j = 2) → (game boardB 0 2 0).state i j = boardB i j) :=
  ⟨by decide, by decide, C4_player_win_terminal boardB 0 2 0 (by decide) (by decide)⟩

/-- Claim C5: when the player's legal move fills the last free cell without
winning, the call reports a draw, returns the terminal conversation state,
and the final board is exactly the input board with the single `CROSS`
added — the opponent places no mark, for every random seed. -/
theorem C5_player_fills_board_draw (b : Board) (r c : Fin 3) (k : Nat)
    (hfree : b r c = Cell.FREE_SPACE)
    (hnowin : won (place b r c Cell.CROSS) Cell.CROSS = false)
    (hfull : free_cells (place b r c Cell.CROSS) = []) :
    (game b r c k).outcome = GameOutcome.DRAW ∧
    (game b r c k).ret = FINISH_GAME ∧
    ∀ i j, (game b r c k).state i j = place b r c Cell.CROSS i j := by
  have hnot : ¬ b r c ≠ Cell.FREE_SPACE := by simp [hfree]
  have hnw : ¬ (won (place b r c Cell.CROSS) Cell.CROSS = true) := by simp [hnowin]
  unfold game
  rw [if_neg hnot]
  dsimp only
  rw [if_neg hnw, dif_neg (not_not_intro hfull)]
  exact ⟨rfl, rfl, fun i j => rfl⟩

/-- Scenario C board: eight cells filled with no winner, only (2,2) free;
the player's move there produces a full board with no winning line. -/
def boardC : Board :=
  ![![Cell.CROSS, Cell.ZERO, Cell.CROSS],
    ![Cell.CROSS, Cell.ZERO, Cell.ZERO],
    ![Cell.ZERO, Cell.CROSS, Cell.FREE_SPACE]]

/-- Claim C5 witness: on the Scenario C board the player plays (2,2). -/
theorem C5_player_fills_board_draw_witness :
    boardC 2 2 = Cell.FREE_SPACE ∧
    won (place boardC 2 2 Cell.CROSS) Cell.CROSS = false ∧
    free_cells (place boardC 2 2 Cell.CROSS) = [] ∧
    ((game boardC 2 2 0).outcome = GameOutcome.DRAW ∧
     (game boardC 2 2 0).ret = FINISH_GAME ∧
     ∀ i j, (game boardC 2 2 0).state i j = place boardC 2 2 Cell.CROSS i j) :=
  ⟨by decide, by decide, by decide,
   C5_player_fills_board_draw boardC 2 2 0 (by decide) (by decide) (by decide)⟩

/-- Claim C6: when the player's move is legal, does not win, and free cells
remain after it, the opponent makes exactly one counter-move: the final
board is the post-player board with a single `ZERO` placed on some member
of the free-cell list computed after the player's move — so the opponent
never overwrites an occupied cell and never places more than one mark. -/
theorem C6_opponent_moves_in_free_cell (b : Board) (r c : Fin 3) (k : Nat)
    (hfree : b r c = Cell.FREE_SPACE)
    (hnowin : won (place b r c Cell.CROSS) Cell.CROSS = false)
    (hne : free_cells (place b r c Cell.CROSS) ≠ []) :
    ∃ p : Fin 3 × Fin 3,
      p ∈ free_cells (place b r c Cell.CROSS) ∧
      place b r c Cell.CROSS p.1 p.2 = Cell.FREE_SPACE ∧
      ∀ i j, (game b r c k).state i j =
        place (place b r c Cell.CROSS) p.1 p.2 Cell.ZERO i j := by
  have hnot : ¬ b r c ≠ Cell.FREE_SPACE := by simp [hfree]
  have hnw : ¬ (won (place b r c Cell.CROSS) Cell.CROSS = true) := by simp [hnowin]
  refine ⟨(free_cells (place b r c Cell.CROSS)).get
      ⟨k % (free_cells (place b r c Cell.CROSS)).length,
       Nat.mod_lt k (List.length_pos.mpr hne)⟩, ?_, ?_, ?_⟩
  · exact List.get_mem _ _ _
  · exact mem_free_cells (List.get_mem _ _ _)
  · intro i j
    unfold game
    rw [if_neg hnot]
    dsimp only
    rw [if_neg hnw, dif_pos hne]
    split <;> rfl

/-- Claim C6 witness: Scenario A — the empty board, player plays (0,0). -/
theorem C6_opponent_moves_in_free_cell_witness :
    DEFAULT_STATE 0 0 = Cell.FREE_SPACE ∧
    won (place DEFAULT_STATE 0 0 Cell.CROSS) Cell.CROSS = false ∧
    free_cells (place DEFAULT_STATE 0 0 Cell.CROSS) ≠ [] ∧
    (∃ p : Fin 3 × Fin 3,
      p ∈ free_cells (place DEFAULT_STATE 0 0 Cell.CROSS) ∧
      place DEFAULT_STATE 0 0 Cell.CROSS p.1 p.2 = Cell.FREE_SPACE ∧
      ∀ i j, (game DEFAULT_STATE 0 0 7).state i j =
        place (place DEFAULT_STATE 0 0 Cell.CROSS) p.1 p.2 Cell.ZERO i j) :=
  ⟨by decide, by decide, by decide,
   C6_opponent_moves_in_free_cell DEFAULT_STATE 0 0 7 (by decide) (by decide) (by decide)⟩

end TicTacToe

namespace TicTacToe

/-- Claim C7: every `game` call returns exactly one of the two
conversation states, and the state is determined by the outcome:
`CONTINUE_GAME` exactly for ILLEGAL_MOVE or ONGOING, `FINISH_GAME` exactly
for PLAYER_WIN, OPPONENT_WIN or DRAW. -/
theorem C7_state_machine (b : Board) (r c : Fin 3) (k : Nat) :
    ((game b r c k).ret = CONTINUE_GAME ∨ (game b r c k).ret = FINISH_GAME) ∧
    ((game b r c k).ret = CONTINUE_GAME ↔
      ((game b r c k).outcome = GameOutcome.ILLEGAL_MOVE ∨
       (game b r c k).outcome = GameOutcome.ONGOING)) ∧
    ((game b r c k).ret = FINISH_GAME ↔
      ((game b r c k).outcome = GameOutcome.PLAYER_WIN ∨
       (game b r c k).outcome = GameOutcome.OPPONENT_WIN ∨
       (game b r c k).outcome = GameOutcome.DRAW)) := by
  by_cases h1 : b r c ≠ Cell.FREE_SPACE
  · unfold game
    rw [if_pos h1]
    simp [CONTINUE_GAME, FINISH_GAME]
  · unfold game
    rw [if_neg h1]
    dsimp only
    by_cases h2 : won (place b r c Cell.CROSS) Cell.CROSS = true
    · rw [if_pos h2]
      simp [CONTINUE_GAME, FINISH_GAME]
    · rw [if_neg h2]
      by_cases h3 : free_cells (place b r c Cell.CROSS) ≠ []
      · rw [dif_pos h3]
        split <;> simp [CONTINUE_GAME, FINISH_GAME]
      · rw [dif_neg h3]
        simp [CONTINUE_GAME, FINISH_GAME]

/-- A board on which the opponent's reply fills the last free cell: the
player's move (2,1) is legal and non-winning, exactly one free cell (2,2)
remains for the opponent, and the opponent's `ZERO` there wins nothing. -/
def boardC1 : Board :=
  ![![Cell.CROSS, Cell.ZERO, Cell.CROSS],
    ![Cell.ZERO, Cell.CROSS, Cell.CROSS],
    ![Cell.ZERO, Cell.FREE_SPACE, Cell.FREE_SPACE]]

/-- Claim C1 counterexample: on `boardC1` the player legally plays (2,1)
without winning, the opponent moves (one free cell remained) and does not
win, and after the opponent's mark no free cell remains — yet the call
reports ONGOING and returns `CONTINUE_GAME`, not DRAW with `FINISH_GAME`:
the draw check re-tests the free-cell list computed before the opponent's
move, which is non-empty. -/
theorem C1_counterexample :
    boardC1 2 1 = Cell.FREE_SPACE ∧
    won (place boardC1 2 1 Cell.CROSS) Cell.CROSS = false ∧
    free_cells (place boardC1 2 1 Cell.CROSS) ≠ [] ∧
    won ((game boardC1 2 1 0).state) Cell.ZERO = false ∧
    free_cells ((game boardC1 2 1 0).state) = [] ∧
    (game boardC1 2 1 0).outcome = GameOutcome.ONGOING ∧
    (game boardC1 2 1 0).ret = CONTINUE_GAME := by decide

/-- Claim C1 as amended: when the player's move is legal and non-winning,
the pre-opponent free-cell list is non-empty (so the opponent moves), and
the opponent's mark does not win, the call returns ONGOING with
`CONTINUE_GAME` — even when the opponent's mark filled the last free cell;
the DRAW/terminal outcome arises exactly when the free-cell list computed
after the player's move (before the opponent moves) is already empty. -/
theorem C1_amended_opponent_fill (b : Board) (r c : Fin 3) (k : Nat)
    (hfree : b r c = Cell.FREE_SPACE)
    (hnowin : won (place b r c Cell.CROSS) Cell.CROSS = false)
    (hne : free_cells (place b r c Cell.CROSS) ≠ [])
    (hai : won ((game b r c k).state) Cell.ZERO = false) :
    (game b r c k).outcome = GameOutcome.ONGOING ∧
    (game b r c k).ret = CONTINUE_GAME := by
  have hnot : ¬ b r c ≠ Cell.FREE_SPACE := by simp [hfree]
  have hnw : ¬ (won (place b r c Cell.CROSS) Cell.CROSS = true) := by simp [hnowin]
  unfold game at hai ⊢
  rw [if_neg hnot] at hai ⊢
  dsimp only at hai ⊢
  rw [if_neg hnw, dif_pos hne] at hai ⊢
  split at hai
  · rename_i hw
    dsimp only at hai
    rw [hw] at hai
    cases hai
  · rename_i hw
    rw [if_neg hw]
    exact ⟨rfl, rfl⟩

/-- Claim C1 amended witness: the `boardC1` scenario, where the opponent
fills the last cell and the call stays ONGOING. -/
theorem C1_amended_opponent_fill_witness :
    boardC1 2 1 = Cell.FREE_SPACE ∧
    won (place boardC1 2 1 Cell.CROSS) Cell.CROSS = false ∧
    free_cells (place boardC1 2 1 Cell.CROSS) ≠ [] ∧
    won ((game boardC1 2 1 0).state) Cell.ZERO = false ∧
    ((game boardC1 2 1 0).outcome = GameOutcome.ONGOING ∧
     (game boardC1 2 1 0).ret = CONTINUE_GAME) :=
  ⟨by decide, by decide, by decide, by decide,
   C1_amended_opponent_fill boardC1 2 1 0 (by decide) (by decide) (by decide) (by decide)⟩

/-- Claim C8: `get_default_state` — used by `start` on session start and by
the `end` handler on reset after a finished game — always yields the board
with all 9 cells free; `start` additionally returns `CONTINUE_GAME`, the
awaiting-move conversation state.  `get_default_state` is a constant (it
deep-copies the pristine `DEFAULT_STATE`), so the fresh board is
independent of every previously mutated board. -/
theorem C8_reset_fresh_board (i j : Fin 3) :
    get_default_state i j = Cell.FREE_SPACE ∧
    start.1 i j = Cell.FREE_SPACE ∧
    start.2 = CONTINUE_GAME ∧
    endConversation.1 i j = Cell.FREE_SPACE :=
  ⟨rfl, rfl, rfl, rfl⟩

/-- An anchored all-literal pattern matches exactly its body and its body
followed by one trailing newline. -/
lemma regexMatches_literal (body bodyNl s : String) (h : body ++ "\n" = bodyNl) :
    regexMatches body s = true ↔ (s = body ∨ s = bodyNl) := by
  subst h
  simp [regexMatches]

/-- Claim C9 counterexample: the datum `"00\n"` — three characters, so not
one of the nine two-character strings — is accepted by a registered
pattern (Python's `$` also matches just before a trailing newline), and
`r, c = map(int, query.data)` then raises `ValueError` (`none`): the
handler faults instead of producing in-range coordinates. -/
theorem C9_counterexample :
    acceptedByHandlers "00\n" = true ∧
    "00\n".length ≠ 2 ∧
    parseCoords "00\n" = none := by decide

/-- Claim C9 as amended: the registered patterns accept exactly eighteen
strings — the nine two-character strings "00" … "22" and those same nine
followed by a single trailing newline.  Every accepted two-character datum
parses to two coordinates each in [0,2], so the `game` handler's board
indexing is in range for those; on every accepted newline-suffixed datum
`r, c = map(int, query.data)` raises `ValueError`, so the handler faults
before any board access. -/
theorem C9_amended_patterns (s : String) :
    (acceptedByHandlers s = true ↔
      ((s = "00" ∨ s = "00\n") ∨ (s = "01" ∨ s = "01\n") ∨ (s = "02" ∨ s = "02\n") ∨
       (s = "10" ∨ s = "10\n") ∨ (s = "11" ∨ s = "11\n") ∨ (s = "12" ∨ s = "12\n") ∨
       (s = "20" ∨ s = "20\n") ∨ (s = "21" ∨ s = "21\n") ∨ (s = "22" ∨ s = "22\n"))) ∧
    ((s = "00" ∨ s = "01" ∨ s = "02" ∨ s = "10" ∨ s = "11" ∨ s = "12" ∨
      s = "20" ∨ s = "21" ∨ s = "22") →
      (parseCoords s).isSome = true ∧ ∀ p ∈ parseCoords s, p.1 < 3 ∧ p.2 < 3) ∧
    ((s = "00\n" ∨ s = "01\n" ∨ s = "02\n" ∨ s = "10\n" ∨ s = "11\n" ∨ s = "12\n" ∨
      s = "20\n" ∨ s = "21\n" ∨ s = "22\n") →
      parseCoords s = none) := by
  have hpat : registeredPatterns =
      ["00", "01", "02", "10", "11", "12", "20", "21", "22"] := by decide
  refine ⟨?_, ?_, ?_⟩
  · unfold acceptedByHandlers
    rw [hpat]
    simp only [List.any_cons, List.any_nil, Bool.or_eq_true, Bool.or_false]
    rw [regexMatches_literal "00" "00\n" s rfl, regexMatches_literal "01" "01\n" s rfl,
      regexMatches_literal "02" "02\n" s rfl, regexMatches_literal "10" "10\n" s rfl,
      regexMatches_literal "11" "11\n" s rfl, regexMatches_literal "12" "12\n" s rfl,
      regexMatches_literal "20" "20\n" s rfl, regexMatches_literal "21" "21\n" s rfl,
      regexMatches_literal "22" "22\n" s rfl]
  · intro hs
    rcases hs with h | h | h | h | h | h | h | h | h <;> subst h <;> decide
  · intro hs
    rcases hs with h | h | h | h | h | h | h | h | h <;> subst h <;> decide

/-- Claim C9 amended witness: the datum "12" is accepted and parses to the
in-range coordinates (1,2); the datum `"12\n"` is also accepted and its
parse faults. -/
theorem C9_amended_patterns_witness :
    acceptedByHandlers "12" = true ∧
    ((parseCoords "12").isSome = true ∧ ∀ p ∈ parseCoords "12", p.1 < 3 ∧ p.2 < 3) ∧
    acceptedByHandlers "12\n" = true ∧
    parseCoords "12\n" = none :=
  ⟨by decide, (C9_amended_patterns "12").2.1 (by decide), by decide,
   (C9_amended_patterns "12\n").2.2 (by decide)⟩

/-- Claim C10: the keyboard is the transpose of the board — the button at
keyboard position (i,j) shows cell `state[j][i]` and carries callback data
`"ji"`, so each button addresses exactly the cell whose value it displays
while the displayed grid swaps the board's rows and columns. -/
theorem C10_keyboard_transpose (state : Board) (i j : Fin 3) :
    (generate_keyboard state).length = 3 ∧
    (∀ row ∈ generate_keyboard state, row.length = 3) ∧
    ((generate_keyboard state).getD i.val []).getD j.val default =
      ⟨state j i, toString j.val ++ toString i.val⟩ := by
  refine ⟨by simp [generate_keyboard], ?_, ?_⟩
  · intro row hrow
    simp only [generate_keyboard, List.mem_map] at hrow
    obtain ⟨cc, _, rfl⟩ := hrow
    simp
  · fin_cases i <;> fin_cases j <;> simp [generate_keyboard, List.finRange]

end TicTacToe

namespace TicTacToe

/-- Claim C10 witness: on the fresh board, the button at keyboard position
(0,1) shows cell (1,0) and carries callback data "10". -/
theorem C10_keyboard_transpose_witness :
    (generate_keyboard DEFAULT_STATE).length = 3 ∧
    (∀ row ∈ generate_keyboard DEFAULT_STATE, row.length = 3) ∧
    ((generate_keyboard DEFAULT_STATE).getD (0 : Fin 3).val []).getD (1 : Fin 3).val default =
      ⟨DEFAULT_STATE 1 0, toString (1 : Fin 3).val ++ toString (0 : Fin 3).val⟩ :=
  C10_keyboard_transpose DEFAULT_STATE 0 1

end TicTacToe
